import Mathlib

/-!
Verification of the Device Control Core of the michelson-interferometer
repository (src/michelson_interferometer/devices.py), shallowly embedded in
Lean 4.  Python floats are modelled by rationals; the mock driver of
devices_mock.py supplies the device responses for whole-system runs, and
driver responses are abstracted as oracles where a claim quantifies over
driver behaviour.
-/

/-! ## Constants (devices.py lines 31-47) -/

/-- MOTOR_MAX_SPEED = 100.0 millimeters/second (devices.py line 38). -/
def MOTOR_MAX_SPEED : ℚ := 100

/-- SPEED_EPSILON = 0.1 millimeters/second (devices.py line 39). -/
def SPEED_EPSILON : ℚ := 1 / 10

/-- SLEEP_DURATION = 1/120 seconds (devices.py line 45). -/
def SLEEP_DURATION : ℚ := 1 / 120

/-- MAX_INTENSITY = 2^16 - 1, the 16-bit detector full scale
(devices.py line 47). -/
def MAX_INTENSITY : ℕ := 2 ^ 16 - 1

/-! ## The motor's command queue

Motor._queue holds (bound method, argument) pairs.  Each pair that the
public operations home(), stop() and set_position() can enqueue is one
constructor; Cmd.getPosition stands for the pair (self._get_position, None)
that the worker assigns to its local variables on a polling tick. -/

/-- One (function, argument) pair as stored in Motor._queue, plus the
polling action Motor._get_position that the worker itself dispatches. -/
inductive Cmd
  | enable
  | home
  | stop
  | setSpeed (v : ℚ)
  | setPosition (p : ℚ)
  | getPosition
deriving DecidableEq

/-- One call recorded against the device driver (the mock KinesisMotor of
devices_mock.py records exactly these invocations). -/
inductive DevCall
  | enableChannel
  | home
  | stop
  | moveTo (p : ℚ)
  | setupVelocity (v : ℚ)
  | getVelocityParameters
  | getPosition
deriving DecidableEq

/-- State of the mock KinesisMotor (devices_mock.py lines 30-74):
a stored position and a stored speed. -/
structure KinesisState where
  pos : ℚ
  speed : ℚ
deriving DecidableEq

/-- State of one Motor instance together with its worker thread's local
variables.  data, callbacks and events are the sample log, the on_update
invocations and the device-driver call record; executed records the
commands in the order the worker dequeued them; cur is the worker's
local (func, arg) pair, which Python leaves unchanged when the queue is
empty on a command tick (devices.py lines 185-188). -/
structure MotorState where
  queue : List Cmd
  currentSpeed : ℚ
  data : List (ℕ × ℚ)
  callbacks : List ℚ
  events : List DevCall
  executed : List Cmd
  cur : Cmd
  dev : KinesisState
  clock : ℕ
deriving DecidableEq

/-- A fresh Motor before any command is enqueued: _current_speed = 0.0,
empty log, mock device at position 0 and speed 0. -/
def motorState0 : MotorState :=
  { queue := [], currentSpeed := 0, data := [], callbacks := [], events := [],
    executed := [], cur := Cmd.getPosition, dev := { pos := 0, speed := 0 },
    clock := 0 }

/-- Executing one dispatched (function, argument) pair against the mock
driver: _enable, _home, _stop, _set_position, _set_speed, _get_position
(devices.py lines 117-173 and 140-144).  For _set_speed the mock driver's
setup_velocity always succeeds and its readback equals the written value,
so the verify loop of devices.py lines 160-173 exits on its first attempt
after one setup_velocity and one get_velocity_parameters call; _set_speed
assigns self._current_speed = speed before the loop (line 159). -/
def execCmd (c : Cmd) (s : MotorState) : MotorState :=
  match c with
  | Cmd.enable => { s with events := s.events ++ [DevCall.enableChannel] }
  | Cmd.home => { s with events := s.events ++ [DevCall.home] }
  | Cmd.stop => { s with events := s.events ++ [DevCall.stop] }
  | Cmd.setPosition p =>
      { s with events := s.events ++ [DevCall.moveTo p],
               dev := { s.dev with pos := p } }
  | Cmd.setSpeed v =>
      { s with currentSpeed := v,
               events := s.events ++
                 [DevCall.setupVelocity v, DevCall.getVelocityParameters],
               dev := { s.dev with speed := v } }
  | Cmd.getPosition =>
      { s with events := s.events ++ [DevCall.getPosition],
               data := s.data ++ [(s.clock, s.dev.pos)],
               callbacks := s.callbacks ++ [s.dev.pos],
               clock := s.clock + 1 }

/-- One iteration of Motor._run_thread (devices.py lines 180-193):
on a polling tick assign (func, arg) := (_get_position, None); on a
command tick dequeue if possible, and on Empty leave (func, arg) as they
were (the except-pass at lines 187-188); then execute func(arg). -/
def motorTick (shouldGetPosition : Bool) (s : MotorState) : MotorState :=
  if shouldGetPosition then
    execCmd Cmd.getPosition { s with cur := Cmd.getPosition }
  else
    match s.queue with
    | c :: rest =>
        execCmd c { s with cur := c, queue := rest, executed := s.executed ++ [c] }
    | [] => execCmd s.cur s

/-- Motor.home (devices.py lines 111-115): enqueue _enable, then
_set_speed(MOTOR_MAX_SPEED), then _home. -/
def Motor.home (s : MotorState) : MotorState :=
  { s with queue := s.queue ++ [Cmd.enable, Cmd.setSpeed MOTOR_MAX_SPEED, Cmd.home] }

/-- Motor.stop (devices.py lines 123-126): enqueue _stop, then
_set_speed(MOTOR_MAX_SPEED). -/
def Motor.stop (s : MotorState) : MotorState :=
  { s with queue := s.queue ++ [Cmd.stop, Cmd.setSpeed MOTOR_MAX_SPEED] }

/-- Motor.set_position (devices.py lines 146-152): if speed differs from
self._current_speed enqueue _set_speed(speed); then enqueue
_set_position(position). -/
def Motor.set_position (p v : ℚ) (s : MotorState) : MotorState :=
  let s1 :=
    if v ≠ s.currentSpeed then
      { s with queue := s.queue ++ [Cmd.setSpeed v] }
    else s
  { s1 with queue := s1.queue ++ [Cmd.setPosition p] }

/-! ## Interleavings of caller operations and worker ticks -/

/-- One step of the whole Motor system: a caller invoking one of the three
enqueueing operations, or the worker running one loop iteration. -/
inductive MotorAction
  | callHome
  | callStop
  | callSetPosition (p v : ℚ)
  | tick (poll : Bool)

/-- Apply one MotorAction. -/
def applyAction : MotorAction → MotorState → MotorState
  | MotorAction.callHome, s => Motor.home s
  | MotorAction.callStop, s => Motor.stop s
  | MotorAction.callSetPosition p v, s => Motor.set_position p v s
  | MotorAction.tick b, s => motorTick b s

/-- Run a sequence of MotorActions in order. -/
def runActions : List MotorAction → MotorState → MotorState
  | [], s => s
  | a :: as, s => runActions as (applyAction a s)

/-- The commands one action enqueues, given the state it runs in. -/
def enqOf (a : MotorAction) (s : MotorState) : List Cmd :=
  match a with
  | MotorAction.callHome => [Cmd.enable, Cmd.setSpeed MOTOR_MAX_SPEED, Cmd.home]
  | MotorAction.callStop => [Cmd.stop, Cmd.setSpeed MOTOR_MAX_SPEED]
  | MotorAction.callSetPosition p v =>
      (if v = s.currentSpeed then [] else [Cmd.setSpeed v]) ++ [Cmd.setPosition p]
  | MotorAction.tick _ => []

/-- All commands a sequence of actions enqueues, in enqueue order. -/
def enqTrace : List MotorAction → MotorState → List Cmd
  | [], _ => []
  | a :: as, s => enqOf a s ++ enqTrace as (applyAction a s)

/-- The worker's tick schedule: cycle([True, False]) (devices.py line 180),
n pairs of one polling tick followed by one command tick. -/
def altTicks : ℕ → List MotorAction
  | 0 => []
  | n + 1 => MotorAction.tick true :: MotorAction.tick false :: altTicks n

/-- The recorded driver calls that are not position polls. -/
def commandCalls (s : MotorState) : List DevCall :=
  s.events.filter (fun e => e ≠ DevCall.getPosition)

/-! ## Motor.wait (devices.py lines 101-109) -/

/-- Outcome of one KinesisMotor.wait_for_stop call: it returns, or it
raises ThorlabsError. -/
inductive StopResult
  | ok
  | thorlabsError
deriving DecidableEq

/-- Driver oracle whose first wait_for_stop call gives a and every later
one gives b. -/
def waitSeq (a b : StopResult) : ℕ → StopResult
  | 0 => a
  | _ + 1 => b

/-- Motor.wait (devices.py lines 101-109) against a wait_for_stop oracle:
call wait_for_stop; on ThorlabsError sleep and call it once more, this
time unprotected, so a second ThorlabsError propagates.  Returns the
outcome and the number of wait_for_stop calls made. -/
def Motor.wait (o : ℕ → StopResult) : Except Unit Unit × ℕ :=
  match o 0 with
  | StopResult.ok => (Except.ok (), 1)
  | StopResult.thorlabsError =>
    match o 1 with
    | StopResult.ok => (Except.ok (), 2)
    | StopResult.thorlabsError => (Except.error (), 2)

/-! ## Motor.position (devices.py lines 131-138) -/

/-- Motor.position: return self.data[-1][1]; on IndexError sleep
2 * SLEEP_DURATION and evaluate self.data[-1][1] again, outside any
try, so a second IndexError propagates.  dataAtCall is the log at the
first access and dataAfterSleep the log after the sleep (the worker may
have appended meanwhile).  Returns the outcome, the number of log
accesses, and the total time slept. -/
def Motor.position (dataAtCall dataAfterSleep : List (ℕ × ℚ)) :
    Except Unit ℚ × ℕ × ℚ :=
  match dataAtCall.getLast? with
  | some sample => (Except.ok sample.2, 1, 0)
  | none =>
    match dataAfterSleep.getLast? with
    | some sample => (Except.ok sample.2, 2, 2 * SLEEP_DURATION)
    | none => (Except.error (), 2, 2 * SLEEP_DURATION)

/-! ## Motor._set_speed against an arbitrary driver (devices.py 157-173) -/

/-- What one attempt of the _set_speed verify loop observes from the
driver: setup_velocity raised ThorlabsError, get_velocity_parameters
raised ThorlabsError, or the readback value returned. -/
inductive SpeedAttempt
  | setupError
  | readbackError
  | readback (v : ℚ)

/-- Whether one attempt succeeds: both driver calls return and the
readback is within SPEED_EPSILON of the requested speed (the code raises
ValueError when abs(current_speed - speed) > SPEED_EPSILON, and catches
ThorlabsError and ValueError alike). -/
def attemptOk (speed : ℚ) : SpeedAttempt → Bool
  | SpeedAttempt.setupError => false
  | SpeedAttempt.readbackError => false
  | SpeedAttempt.readback v => decide (|v - speed| ≤ SPEED_EPSILON)

/-- The for-loop of _set_speed (devices.py lines 160-173) with fuel
attempts remaining, reading attempt i's outcome from the oracle; break on
the first successful attempt.  Returns the number of attempts made.  Both
exception classes the body can raise are caught by the except clause, so
the loop itself never raises. -/
def setSpeedLoop (speed : ℚ) (o : ℕ → SpeedAttempt) : ℕ → ℕ → ℕ
  | 0, _ => 0
  | n + 1, i =>
      if attemptOk speed (o i) then 1 else 1 + setSpeedLoop speed o n (i + 1)

/-- Attempts made by Motor._set_speed: range(3) starting at attempt 0. -/
def setSpeedAttempts (speed : ℚ) (o : ℕ → SpeedAttempt) : ℕ :=
  setSpeedLoop speed o 3 0

/-! ## Detector (devices.py lines 196-260) -/

/-- The measurement query string sent by Detector.intensity
(devices.py line 243). -/
def Detector.measCommand : String := "det:meas?"

/-- Detector.intensity (devices.py lines 239-246) against an ask oracle:
issue the measurement query, take the integer reply, and return it
divided by MAX_INTENSITY. -/
def Detector.intensity (ask : String → ℤ) : ℚ :=
  ((ask Detector.measCommand : ℤ) : ℚ) / (MAX_INTENSITY : ℚ)

/-- State of one Detector instance: sample log, on_update invocations,
and a clock for timestamps. -/
structure DetectorState where
  data : List (ℕ × ℚ)
  callbacks : List ℚ
  clock : ℕ
deriving DecidableEq

/-- A fresh Detector: empty log, no callbacks yet. -/
def detectorState0 : DetectorState := { data := [], callbacks := [], clock := 0 }

/-- One iteration of Detector._run_thread (devices.py lines 248-260):
read intensity; on an exception print it and continue (resp = none);
otherwise append (time, intensity) to the log and call on_update. -/
def Detector.runThreadTick (resp : Option ℤ) (s : DetectorState) : DetectorState :=
  match resp with
  | none => s
  | some v =>
      let i := Detector.intensity (fun _ => v)
      { data := s.data ++ [(s.clock, i)], callbacks := s.callbacks ++ [i],
        clock := s.clock + 1 }

/-! ## Construction (devices.py lines 74-99 and 199-222) -/

/-- How construction fails: the device glob matched nothing (the IOError
of devices.py lines 79 and 204), or the detector's identity check failed
(the IOError of line 222). -/
inductive InitError
  | deviceNotFound
  | connectFailed
deriving DecidableEq

/-- Outcome of Motor.__init__: the constructed state or the error raised,
and whether start_thread ran before the outcome was decided. -/
structure MotorInit where
  result : Except InitError MotorState
  workerStarted : Bool

/-- Motor.__init__ (devices.py lines 74-99) given the glob matches:
glob(MOTOR_DEVICE_GLOB)[0] raises IndexError on zero matches, turned into
IOError before anything else happens; otherwise open the device, start
the worker thread, create the queue and call self.home(). -/
def motorInit (paths : List String) : MotorInit :=
  match paths with
  | [] => { result := Except.error InitError.deviceNotFound, workerStarted := false }
  | _ :: _ =>
      { result := Except.ok (Motor.home motorState0), workerStarted := true }

/-- Outcome of Detector.__init__. -/
structure DetectorInit where
  result : Except InitError DetectorState
  workerStarted : Bool

/-- Detector.__init__ (devices.py lines 199-222) given the glob matches
and the driver's get_id() reply: zero matches raise before anything else;
otherwise the device is opened, the worker thread is started (line 218),
and only then is get_id checked (line 221), whose empty reply raises
IOError with the thread already running. -/
def detectorInit (paths : List String) (devId : String) : DetectorInit :=
  match paths with
  | [] => { result := Except.error InitError.deviceNotFound, workerStarted := false }
  | _ :: _ =>
      if devId.isEmpty then
        { result := Except.error InitError.connectFailed, workerStarted := true }
      else
        { result := Except.ok detectorState0, workerStarted := true }

/-! ## Helper lemmas -/

theorem execCmd_queue (c : Cmd) (s : MotorState) : (execCmd c s).queue = s.queue := by
  cases c <;> rfl

theorem execCmd_executed (c : Cmd) (s : MotorState) :
    (execCmd c s).executed = s.executed := by
  cases c <;> rfl

/-- Each action moves some front portion of the queue (k commands, in
order) to the end of the executed list, and appends what it enqueues at
the back of the queue. -/
theorem applyAction_spec (a : MotorAction) (s : MotorState) :
    ∃ k, (applyAction a s).executed = s.executed ++ s.queue.take k
       ∧ (applyAction a s).queue = s.queue.drop k ++ enqOf a s := by
  cases a with
  | callHome => exact ⟨0, by simp [applyAction, Motor.home, enqOf]⟩
  | callStop => exact ⟨0, by simp [applyAction, Motor.stop, enqOf]⟩
  | callSetPosition p v =>
      refine ⟨0, ?_⟩
      by_cases h : v = s.currentSpeed
      · simp [applyAction, Motor.set_position, enqOf, h]
      · simp [applyAction, Motor.set_position, enqOf, h]
  | tick b =>
      cases b with
      | true =>
          exact ⟨0, by simp [applyAction, motorTick, execCmd_executed, execCmd_queue, enqOf]⟩
      | false =>
          cases hq : s.queue with
          | nil =>
              exact ⟨0, by
                simp [applyAction, motorTick, hq, execCmd_executed, execCmd_queue, enqOf]⟩
          | cons c rest =>
              exact ⟨1, by
                simp [applyAction, motorTick, hq, execCmd_executed, execCmd_queue, enqOf]⟩

/-- C1 (confirmed).  For every sequence of caller operations and worker
ticks, the worker executes enqueued commands in exactly FIFO order: the
executed list only ever grows (first conjunct), and at every point the
executed list followed by the still-pending queue equals the prior
executed list, the prior queue, and every command enqueued since, in
enqueue order (second conjunct) — so a later-enqueued command never
executes before an earlier one. -/
theorem motor_fifo (as : List MotorAction) : ∀ s : MotorState,
    (∃ t, (runActions as s).executed = s.executed ++ t)
    ∧ (runActions as s).executed ++ (runActions as s).queue
        = s.executed ++ (s.queue ++ enqTrace as s) := by
  induction as with
  | nil =>
      intro s
      exact ⟨⟨[], by simp [runActions]⟩, by simp [runActions, enqTrace]⟩
  | cons a as ih =>
      intro s
      obtain ⟨k, hex, hq⟩ := applyAction_spec a s
      obtain ⟨⟨t, ht⟩, htot⟩ := ih (applyAction a s)
      have hrun : runActions (a :: as) s = runActions as (applyAction a s) := rfl
      constructor
      · exact ⟨s.queue.take k ++ t, by rw [hrun, ht, hex, List.append_assoc]⟩
      · rw [hrun, htot, hex, hq]
        simp only [List.append_assoc]
        rw [← List.append_assoc (s.queue.take k), List.take_append_drop]
        rfl

/-! ## C2: the home-then-set_position drain scenario -/

/-- The Motor state after calling home(), then set_position(10.0) at the
default speed, then letting the worker run five poll/command tick pairs,
which drains all five enqueued commands. -/
def c2State : MotorState :=
  runActions
    (MotorAction.callHome :: MotorAction.callSetPosition 10 MOTOR_MAX_SPEED ::
      altTicks 5)
    motorState0

/-- C2 (counterexample).  After home(); set_position(10.0) and a full
drain, the non-poll driver calls are NOT exactly
[enable, home, move_to(10.0)]: home() also enqueues SetSpeed(max) and
set_position compares against a current_speed of 0.0, so the drain also
issues setup_velocity and get_velocity_parameters calls. -/
theorem c2_trace_ne :
    c2State.queue = [] ∧
    commandCalls c2State ≠
      [DevCall.enableChannel, DevCall.home, DevCall.moveTo 10] := by
  decide

/-- C2 (amended).  After home(); set_position(10.0) and a full drain, the
driver recorded exactly [enable, setup_velocity(100),
get_velocity_parameters, home, setup_velocity(100),
get_velocity_parameters, move_to(10.0)] in that order, interleaved with
zero or more position polls and nothing else: home() enqueues Enable,
SetSpeed(max), Home, and set_position(10.0) enqueues a further
SetSpeed(100) because current_speed is still 0.0 at enqueue time. -/
theorem c2_trace :
    c2State.queue = [] ∧
    commandCalls c2State =
      [DevCall.enableChannel, DevCall.setupVelocity 100,
       DevCall.getVelocityParameters, DevCall.home, DevCall.setupVelocity 100,
       DevCall.getVelocityParameters, DevCall.moveTo 10] := by
  decide

/-! ## C3: the empty-queue command tick -/

/-- C3 (counterexample).  One poll tick followed by one command tick on an
empty queue: the command tick is not a no-op.  Because the except-Empty
clause only passes, (func, arg) still hold (_get_position, None) from the
poll tick, so the command tick issues a device operation, appends a
sample and invokes the callback: every trace grows from length 1 to
length 2. -/
theorem c3_empty_tick_not_noop :
    (motorTick true motorState0).queue = [] ∧
    (motorTick false (motorTick true motorState0)).events.length =
      (motorTick true motorState0).events.length + 1 ∧
    (motorTick false (motorTick true motorState0)).data.length =
      (motorTick true motorState0).data.length + 1 ∧
    (motorTick false (motorTick true motorState0)).callbacks.length =
      (motorTick true motorState0).callbacks.length + 1 := by
  decide

/-- C3 (amended).  On a command tick with an empty queue the worker
re-executes the action last assigned to its loop variables; every poll
tick assigns the position poll (second conjunct), and the real schedule
alternates poll and command ticks, so an empty-queue command tick polls
the device position, appends one sample and invokes the callback once,
rather than doing nothing. -/
theorem c3_empty_tick_repolls (s : MotorState) (hq : s.queue = [])
    (hc : s.cur = Cmd.getPosition) :
    motorTick false s =
      { s with events := s.events ++ [DevCall.getPosition],
               data := s.data ++ [(s.clock, s.dev.pos)],
               callbacks := s.callbacks ++ [s.dev.pos],
               clock := s.clock + 1 } ∧
    ∀ s2 : MotorState, (motorTick true s2).cur = Cmd.getPosition := by
  constructor
  · obtain ⟨q, cs, d, cb, ev, ex, cu, dv, ck⟩ := s
    simp only at hq hc
    subst hq
    subst hc
    rfl
  · intro s2
    rfl

/-- C3 witness: the amended behaviour at the concrete fresh Motor state,
whose queue is empty and whose worker variables hold the position poll. -/
theorem c3_empty_tick_repolls_witness :
    motorTick false motorState0 =
      { motorState0 with
          events := motorState0.events ++ [DevCall.getPosition],
          data := motorState0.data ++ [(motorState0.clock, motorState0.dev.pos)],
          callbacks := motorState0.callbacks ++ [motorState0.dev.pos],
          clock := motorState0.clock + 1 } ∧
    ∀ s2 : MotorState, (motorTick true s2).cur = Cmd.getPosition :=
  c3_empty_tick_repolls motorState0 rfl rfl

/-! ## C4: when set_position enqueues a SetSpeed -/

/-- C4 (counterexample).  Two back-to-back set_position calls with the
same speed 50, before the worker has run: self._current_speed is still
0.0 at both calls because only the worker-side _set_speed updates it, so
BOTH calls enqueue SetSpeed(50) — a redundant SetSpeed. -/
theorem c4_repeated_setSpeed_redundant :
    (Motor.set_position 20 50 (Motor.set_position 10 50 motorState0)).queue =
      [Cmd.setSpeed 50, Cmd.setPosition 10, Cmd.setSpeed 50, Cmd.setPosition 20] := by
  decide

/-- C4 (amended).  set_position(x, s) enqueues SetSpeed(s) followed by
SetPosition(x) when s differs from current_speed at call time, and only
SetPosition(x) when it does not; executing a SetSpeed sets current_speed
to its value, so once the worker has executed the pending SetSpeed a
repeated set_position with the same speed enqueues no redundant SetSpeed
— but back-to-back calls before the worker runs each enqueue one. -/
theorem c4_set_position_speed (p v : ℚ) :
    (∀ s : MotorState, v ≠ s.currentSpeed →
        (Motor.set_position p v s).queue =
          s.queue ++ [Cmd.setSpeed v, Cmd.setPosition p]) ∧
    (∀ s : MotorState, v = s.currentSpeed →
        (Motor.set_position p v s).queue = s.queue ++ [Cmd.setPosition p]) ∧
    (∀ s : MotorState, (execCmd (Cmd.setSpeed v) s).currentSpeed = v) := by
  refine ⟨fun s h => ?_, fun s h => ?_, fun s => rfl⟩
  · simp [Motor.set_position, h]
  · simp [Motor.set_position, h]

/-- C4 witness: from the fresh Motor state (current_speed 0.0), a call at
speed 50 enqueues SetSpeed then SetPosition; a call at speed 0 enqueues
only SetPosition. -/
theorem c4_set_position_speed_witness :
    (Motor.set_position 10 50 motorState0).queue =
      [Cmd.setSpeed 50, Cmd.setPosition 10] ∧
    (Motor.set_position 10 0 motorState0).queue = [Cmd.setPosition 10] := by
  constructor
  · have h := (c4_set_position_speed 10 50).1 motorState0 (by decide)
    simpa [motorState0] using h
  · have h := (c4_set_position_speed 10 0).2.1 motorState0 (by decide)
    simpa [motorState0] using h

/-! ## C5: _set_speed terminates within 3 attempts -/

/-- The verify loop never makes more attempts than its range bound. -/
theorem setSpeedLoop_le (speed : ℚ) (o : ℕ → SpeedAttempt) :
    ∀ n i, setSpeedLoop speed o n i ≤ n := by
  intro n
  induction n with
  | zero => intro i; simp [setSpeedLoop]
  | succ k ih =>
      intro i
      unfold setSpeedLoop
      split
      · omega
      · have h := ih (i + 1)
        omega

/-- C5 (confirmed).  Motor._set_speed makes at most 3 attempts for every
driver behaviour, and it is a total function of the driver's responses —
both exception classes the loop body can raise (ThorlabsError and the
ValueError of the epsilon check) are caught, so it returns without
raising, giving up silently.  With a driver whose readback persistently
misses the requested speed by 1 mm/s (beyond the 0.1 mm/s epsilon), and
with a driver that raises on every setup write, it makes exactly 3
attempts and then stops. -/
theorem c5_setSpeed_attempts (speed : ℚ) (o : ℕ → SpeedAttempt) :
    setSpeedAttempts speed o ≤ 3 ∧
    setSpeedAttempts speed (fun _ => SpeedAttempt.readback (speed + 1)) = 3 ∧
    setSpeedAttempts speed (fun _ => SpeedAttempt.setupError) = 3 := by
  refine ⟨setSpeedLoop_le speed o 3 0, ?_, ?_⟩
  · have hbad : attemptOk speed (SpeedAttempt.readback (speed + 1)) = false := by
      simp only [attemptOk]
      rw [show speed + 1 - speed = 1 by ring]
      simp only [decide_eq_false_iff_not, SPEED_EPSILON]
      norm_num
    simp [setSpeedAttempts, setSpeedLoop, hbad]
  · simp [setSpeedAttempts, setSpeedLoop, attemptOk]

/-! ## C6: wait retries wait_for_stop exactly once -/

/-- C6 (confirmed).  Motor.wait calls wait_for_stop; if the first call
raises ThorlabsError it retries exactly once more: a first failure
followed by a success returns normally after 2 calls, two failures
propagate the error after 2 calls, a first success makes 1 call, and no
driver behaviour leads to more than 2 calls. -/
theorem c6_wait_retry (b : StopResult) :
    Motor.wait (waitSeq StopResult.ok b) = (Except.ok (), 1) ∧
    Motor.wait (waitSeq StopResult.thorlabsError StopResult.ok) =
      (Except.ok (), 2) ∧
    Motor.wait (waitSeq StopResult.thorlabsError StopResult.thorlabsError) =
      (Except.error (), 2) ∧
    ∀ o : ℕ → StopResult, (Motor.wait o).2 ≤ 2 := by
  refine ⟨rfl, rfl, rfl, fun o => ?_⟩
  unfold Motor.wait
  cases h0 : o 0 with
  | ok => simp
  | thorlabsError =>
      cases h1 : o 1 with
      | ok => simp [h1]
      | thorlabsError => simp [h1]

/-! ## C7: zero discovered devices -/

/-- C7 (confirmed).  When the device glob matches zero paths, both
Motor.__init__ and Detector.__init__ fail with the device-not-found error
before their background worker thread is started. -/
theorem c7_construction_no_device :
    motorInit [] =
      { result := Except.error InitError.deviceNotFound,
        workerStarted := false } ∧
    ∀ devId : String, detectorInit [] devId =
      { result := Except.error InitError.deviceNotFound,
        workerStarted := false } :=
  ⟨rfl, fun _ => rfl⟩

/-! ## C8: the position read -/

/-- C8 (confirmed).  Motor.position returns the value of the most recent
logged sample in one access when the log is nonempty; when the log is
empty it sleeps 2 * SLEEP_DURATION, retries exactly once, and returns the
most recent sample if the worker appended one meanwhile; if the log is
still empty the IndexError of the second, unprotected access propagates
to the caller instead of any default value. -/
theorem c8_position_latest :
    (∀ (l d2 : List (ℕ × ℚ)) (a : ℕ × ℚ),
        Motor.position (l ++ [a]) d2 = (Except.ok a.2, 1, 0)) ∧
    (∀ (l2 : List (ℕ × ℚ)) (b : ℕ × ℚ),
        Motor.position [] (l2 ++ [b]) =
          (Except.ok b.2, 2, 2 * SLEEP_DURATION)) ∧
    Motor.position [] [] = (Except.error (), 2, 2 * SLEEP_DURATION) := by
  refine ⟨fun l d2 a => ?_, fun l2 b => ?_, rfl⟩
  · simp [Motor.position, List.getLast?_concat]
  · simp [Motor.position, List.getLast?_concat]

/-! ## C9: intensity normalization -/

/-- C9 (confirmed).  Detector.intensity issues the det:meas? query,
takes the integer reply and divides it by the fixed full-scale constant
MAX_INTENSITY = 2^16 - 1; every reply in [0, 2^16 - 1] yields a value in
[0, 1]. -/
theorem c9_intensity_normalized (ask : String → ℤ)
    (h0 : 0 ≤ ask Detector.measCommand)
    (h1 : ask Detector.measCommand ≤ (MAX_INTENSITY : ℤ)) :
    0 ≤ Detector.intensity ask ∧ Detector.intensity ask ≤ 1 ∧
    Detector.intensity ask =
      ((ask Detector.measCommand : ℤ) : ℚ) / ((2 : ℚ) ^ 16 - 1) := by
  have hm : (MAX_INTENSITY : ℚ) = 65535 := by norm_num [MAX_INTENSITY]
  unfold Detector.intensity
  refine ⟨?_, ?_, ?_⟩
  · apply div_nonneg
    · exact_mod_cast h0
    · rw [hm]; norm_num
  · rw [div_le_one (by rw [hm]; norm_num)]
    have h2 : ((ask Detector.measCommand : ℤ) : ℚ) ≤ ((MAX_INTENSITY : ℤ) : ℚ) := by
      exact_mod_cast h1
    calc ((ask Detector.measCommand : ℤ) : ℚ)
        ≤ ((MAX_INTENSITY : ℤ) : ℚ) := h2
      _ = (MAX_INTENSITY : ℚ) := by push_cast; ring
  · rw [hm]; norm_num

/-- C9 witness: the reply 1234 lies in range and normalizes into [0, 1]. -/
theorem c9_intensity_normalized_witness :
    0 ≤ Detector.intensity (fun _ => 1234) ∧
    Detector.intensity (fun _ => 1234) ≤ 1 ∧
    Detector.intensity (fun _ => 1234) =
      ((1234 : ℤ) : ℚ) / ((2 : ℚ) ^ 16 - 1) :=
  c9_intensity_normalized (fun _ => 1234) (by decide) (by decide)

/-! ## C10: detector identity failure after the worker started -/

/-- C10 (confirmed).  When discovery finds a device but get_id() returns
an empty reply, Detector.__init__ raises the connect-failed I/O error;
the polling worker thread was already started before the identity check
and nothing stops it, so it keeps polling: a subsequent successful worker
iteration still appends an intensity sample and invokes the callback on
the very state the failed constructor left behind. -/
theorem c10_detector_identity_failure (p : String) (ps : List String) (v : ℤ)
    (s : DetectorState) :
    (detectorInit (p :: ps) "").result = Except.error InitError.connectFailed ∧
    (detectorInit (p :: ps) "").workerStarted = true ∧
    (Detector.runThreadTick (some v) s).data =
      s.data ++ [(s.clock, Detector.intensity (fun _ => v))] ∧
    (Detector.runThreadTick (some v) s).callbacks =
      s.callbacks ++ [Detector.intensity (fun _ => v)] :=
  ⟨rfl, rfl, rfl, rfl⟩
